import Mathlib

/-!
Verification development for the multi-tenant WhatsApp backend
(`web-whatsapp.js`).  The JavaScript source is shallowly embedded:

* JS strings are `String`, nullable/undefined values are `Option`,
  character-level string operations (`trim`, `includes`, `endsWith`,
  `split("@")[0]`) are modelled on `List Char`;
* the AES-256-GCM cipher and the random IV come from the external
  `crypto` library, so they enter the model as parameters
  (`cipherBytes`, `tagBytes`, `ivBytes`); the hex encoding the source
  applies to their outputs is modelled explicitly;
* the in-memory `clients` table (`{ userId: clientInstance }`) is an
  association list keyed by userId, where assignment replaces and
  `delete` removes;
* the asynchronous `createClient` (guard, `await` of the
  ready/timeout race, catch block) is modelled as a small-step
  machine so that interleavings of two concurrent calls can be run.
-/

namespace WebWhatsapp

/-! ## Character-level string helpers (JS semantics) -/

/-- Test `hasPrefixList sub l` : `sub` is a prefix of `l` (char lists). -/
def hasPrefixList : List Char → List Char → Bool
  | [], _ => true
  | c :: cs, d :: ds => c == d && hasPrefixList cs ds
  | _, [] => false

/-- Test `hasInfixList sub l` : `sub` occurs contiguously inside `l`. -/
def hasInfixList (sub : List Char) : List Char → Bool
  | [] => hasPrefixList sub []
  | b :: bs => hasPrefixList sub (b :: bs) || hasInfixList sub bs

/-- JS `s.includes(sub)`. -/
def strIncludes (s sub : String) : Bool :=
  hasInfixList sub.data s.data

/-- JS `s.endsWith(suffix)`. -/
def strEndsWith (s suffix : String) : Bool :=
  hasPrefixList suffix.data.reverse s.data.reverse

/-- JS `s.trim()` (whitespace stripped from both ends; modelled on the
ASCII whitespace class). -/
def strTrim (s : String) : String :=
  String.mk (((s.data.dropWhile Char.isWhitespace).reverse.dropWhile
      Char.isWhitespace).reverse)

/-- JS `s.split("@")[0]` : the characters before the first `'@'`
(the whole string when there is none). -/
def beforeAt (s : String) : String :=
  String.mk (s.data.takeWhile (fun c => c != '@'))

/-! ## Hex encoding (the `'hex'` output encoding used by the source) -/

def hexDigitChars : List Char :=
  "0123456789abcdef".data

/-- Hex digit for the low nibble of `n`. -/
def hexChar (n : Nat) : Char :=
  hexDigitChars.getD (n % 16) '0'

/-- Hex encoding of a byte sequence (two digits per byte, as produced by
Node's `Buffer.toString('hex')` / `cipher.update(..., 'hex')`). -/
def hexEncode (bs : List Nat) : String :=
  String.mk ((bs.map (fun b => [hexChar (b / 16), hexChar (b % 16)])).flatten)

/-- Every character of `s` is a lowercase hex digit. -/
def IsHexString (s : String) : Prop :=
  ∀ c ∈ s.data, c ∈ hexDigitChars

theorem hexChar_mem (n : Nat) : hexChar n ∈ hexDigitChars := by
  have h : n % 16 < hexDigitChars.length := by
    have := Nat.mod_lt n (show 0 < 16 by decide)
    simpa [hexDigitChars] using this
  rw [hexChar, List.getD_eq_getElem _ _ h]
  exact List.getElem_mem h

theorem hexEncode_isHex (bs : List Nat) : IsHexString (hexEncode bs) := by
  intro c hc
  simp only [hexEncode, String.mk] at hc
  rcases List.mem_flatten.1 hc with ⟨l, hl, hcl⟩
  rcases List.mem_map.1 hl with ⟨b, _, rfl⟩
  simp only [List.mem_cons, List.not_mem_nil, or_false] at hcl
  rcases hcl with rfl | rfl
  · exact hexChar_mem _
  · exact hexChar_mem _

/-! ## Encryption helper (source: `encrypt`, lines 53–69)

```js
function encrypt(text) {
  if (!text) return { encryptedBody: null, iv: null, authTag: null };
  const key = Buffer.from(ENCRYPTION_KEY, 'hex');
  const iv = crypto.randomBytes(16);
  const cipher = crypto.createCipheriv('aes-256-gcm', key, iv);
  let encrypted = cipher.update(text, 'utf-8', 'hex');
  encrypted += cipher.final('hex');
  const authTag = cipher.getAuthTag().toString('hex');
  return { encryptedBody: encrypted, iv: iv.toString('hex'), authTag };
}
```

`cipherBytes`/`tagBytes` abstract the AES-256-GCM ciphertext and
authentication tag for a given plaintext (external `crypto` library,
keyed by the fixed process key); `ivBytes` abstracts
`crypto.randomBytes(16)`.  The source hex-encodes all three outputs. -/

structure EncryptResult where
  encryptedBody : Option String
  iv : Option String
  authTag : Option String
deriving DecidableEq, Repr

def encrypt (cipherBytes tagBytes : String → List Nat) (ivBytes : List Nat)
    (text : Option String) : EncryptResult :=
  match text with
  | none => ⟨none, none, none⟩            -- `!text` : undefined / null
  | some t =>
    if t = "" then ⟨none, none, none⟩      -- `!text` : empty string is falsy
    else
      ⟨some (hexEncode (cipherBytes t)),
       some (hexEncode ivBytes),
       some (hexEncode (tagBytes t))⟩

/-! ## The in-memory clients table

`const clients = {}; // { userId: clientInstance }` — an association
list from userId to a client identifier (`Nat`).  JS property
assignment replaces any previous binding; `delete` removes it. -/

def lookupClient : List (String × Nat) → String → Option Nat
  | [], _ => none
  | (k, v) :: rest, u => if k = u then some v else lookupClient rest u

/-- Model of `delete clients[u]` (identity when `u` is absent). -/
def eraseClient (table : List (String × Nat)) (u : String) : List (String × Nat) :=
  table.filter (fun p => p.1 != u)

/-- Model of the assignment `clients[u] = c`. -/
def insertClient (table : List (String × Nat)) (u : String) (c : Nat) :
    List (String × Nat) :=
  (u, c) :: eraseClient table u

/-! ## Raw inbound messages (source: `saveRawMessage`, lines 89–117,
and `handleInboundMessage`, lines 161–199) -/

/-- A raw message delivered by the channel adapter (`whatsapp-web.js`
`message` event).  The adapter always supplies a string `from`/`to`
address (the source's defensive `msg.from || ""` is the identity on
strings); `body` may be absent (`Option`). -/
structure Msg where
  fromAddr : String            -- `msg.from` (`from` is a Lean keyword)
  toAddr : String              -- `msg.to`
  body : Option String         -- `msg.body`
  msgType : String             -- `msg.type`
  isGroup : Bool               -- `msg.isGroup`
  fromMe : Bool                -- `msg.fromMe`
  wwebId : String              -- `msg.id._serialized`
deriving DecidableEq, Repr

/-- The document `saveRawMessage` appends to the `raw_messages`
collection. -/
structure RawMessageRow where
  timestamp : Nat
  userId : String
  fromAddr : String
  toAddr : String
  encryptedBody : Option String
  iv : Option String
  authTag : Option String
  msgType : String
  phoneNumber : String
  wwebId : String
  isGroup : Bool
  processed : Bool
  isLead : Option Bool
  replyPending : Bool
  autoReplyText : Option String
deriving DecidableEq, Repr

/-- Model of `saveRawMessage(msg, userId)` : the row it builds and appends
(`now` models `admin.firestore.Timestamp.now()`). -/
def saveRawMessage (cipherBytes tagBytes : String → List Nat) (ivBytes : List Nat)
    (now : Nat) (msg : Msg) (userId : String) : RawMessageRow :=
  let encryptedData := encrypt cipherBytes tagBytes ivBytes msg.body
  { timestamp := now
    userId := userId
    fromAddr := msg.fromAddr
    toAddr := msg.toAddr
    encryptedBody := encryptedData.encryptedBody
    iv := encryptedData.iv
    authTag := encryptedData.authTag
    msgType := msg.msgType
    phoneNumber := beforeAt msg.fromAddr    -- `msg.from.split("@")[0]`
    wwebId := msg.wwebId
    isGroup := false
    processed := false
    isLead := none
    replyPending := false
    autoReplyText := none }

/-- Model of `msg.body?.trim() || ""`. -/
def trimmedBody (msg : Msg) : String :=
  match msg.body with
  | none => ""
  | some b => strTrim b

/-- The group/broadcast-like sender test of `handleInboundMessage`. -/
def isGroupLike (msg : Msg) : Bool :=
  msg.isGroup
    || strEndsWith msg.fromAddr "@g.us"
    || strIncludes msg.fromAddr "community"
    || strIncludes msg.fromAddr "@broadcast"
    || strIncludes msg.fromAddr "newsletter"
    || strIncludes msg.fromAddr "@temp"

/-- The list `["sticker", "location", "audio", "video", "image"]`. -/
def mediaTypes : List String :=
  ["sticker", "location", "audio", "video", "image"]

/-- Model of `handleInboundMessage(msg, userId)` : `none` means the message is
skipped with no store write (and no error — the whole handler is inside
`try/catch`); `some row` means exactly one store write of `row`. -/
def handleInboundMessage (cipherBytes tagBytes : String → List Nat)
    (ivBytes : List Nat) (now : Nat) (msg : Msg) (userId : String) :
    Option RawMessageRow :=
  if isGroupLike msg then none                     -- group-like sender
  else if msg.fromMe then none                     -- echo from self
  else if trimmedBody msg = "" then none           -- `!body || body.length < 1`
  else if mediaTypes.contains msg.msgType then none -- media message type
  else some (saveRawMessage cipherBytes tagBytes ivBytes now msg userId)

/-! ## AI reply executor (source: `startAiReplyExecutor`, lines 122–156)

The snapshot listener receives document changes for the query
`replyPending == true`.  For each change of type `added`/`modified` it
reads the document `d`, skips when `!d.autoReplyText || !d.from ||
!d.userId` (so `null`/missing *and empty-string* fields are skipped),
skips when `clients[d.userId]` is absent, and otherwise awaits
`client.sendMessage(d.from, d.autoReplyText)`; only when the send
succeeds does it issue the row update
`{ replyPending: false, replySentAt: now }` (a send failure is caught
and logged, leaving the row untouched). -/

/-- The fields of a `raw_messages` document the executor reads. -/
structure ReplyDoc where
  autoReplyText : Option String   -- `d.autoReplyText`
  fromAddr : Option String        -- `d.from`
  userId : Option String          -- `d.userId`
  replyPending : Bool
  replySentAt : Option Nat
deriving DecidableEq, Repr

inductive ChangeType where
  | added
  | modified
  | removed
deriving DecidableEq, Repr

/-- A `client.sendMessage(address, body)` call issued on client `client`. -/
structure SendRec where
  client : Nat
  address : String
  body : String
deriving DecidableEq, Repr

structure DispatchOutcome where
  sendAttempted : Option SendRec  -- the `sendMessage` call issued, if any
  sendCompleted : Bool            -- the send resolved successfully
  docAfter : ReplyDoc             -- the document after the handler ran
deriving DecidableEq, Repr

/-- One snapshot-change handler invocation of the executor.  `sendOk`
is the outcome of the (external) `sendMessage` call; `now` models
`Timestamp.now()` at the update. -/
def dispatchChange (table : List (String × Nat)) (sendOk : Bool) (now : Nat)
    (ctype : ChangeType) (d : ReplyDoc) : DispatchOutcome :=
  if ctype = .removed then ⟨none, false, d⟩  -- `["added","modified"].includes`
  else
    match d.autoReplyText, d.fromAddr, d.userId with
    | some text, some addr, some uid =>
      if text = "" ∨ addr = "" ∨ uid = "" then ⟨none, false, d⟩  -- falsy field
      else
        match lookupClient table uid with
        | none => ⟨none, false, d⟩            -- `if (!client) return`
        | some client =>
          if sendOk then
            ⟨some ⟨client, addr, text⟩, true,
             { d with replyPending := false, replySentAt := some now }⟩
          else
            ⟨some ⟨client, addr, text⟩, false, d⟩  -- catch: log only
    | _, _, _ => ⟨none, false, d⟩              -- missing field

/-! ## Session status projection (source: `updateFirestoreStatus` call sites)

Each call writes a partial document into `whatsapp_sessions` with merge
semantics.  `qr : Option (Option String)` distinguishes an absent field
(`none`) from an explicit `null` (`some none`). -/

structure StatusWrite where
  userId : String
  status : String
  connected : Bool
  qr : Option (Option String)
  phoneNumber : Option String
deriving DecidableEq, Repr

/-! ## Session manager (source: `createClient`, lines 250–328)

```js
async function createClient(userId) {
  if (clients[userId]) return clients[userId];
  const client = new Client({ ... });          // adapter started
  setupClientListeners(client, userId);
  try {
    const readyPromise = new Promise((resolve) => client.once("ready", resolve));
    const timeoutPromise = new Promise((_, reject) =>
      setTimeout(() => reject(new Error(`QR_TIMEOUT: ...`)), QR_TIMEOUT_MS));
    await Promise.race([client.initialize(), timeoutPromise]);
    await readyPromise;
    clients[userId] = client;                  // registration at ready
    return client;
  } catch (err) {
    try { if (clients[userId]) delete clients[userId]; await client.destroy(); }
    catch (destroyErr) { /* ignored */ }
    updateFirestoreStatus(userId, { status: err.message.includes('QR_TIMEOUT')
      ? "qr_timeout" : "init_failed", qr: null, connected: false });
    throw err;
  }
}
```

The `await` points make `createClient` a sequence of atomic segments;
we model it as a small-step machine so that interleavings of two
concurrent invocations can be executed.  An invocation is in one of
four phases; the shared state carries the `clients` table, a counter
for fresh adapters, instrumentation counters for started adapters and
`client.destroy()` calls, and the status writes. -/

def QR_TIMEOUT_MS : Nat := 60000

/-- The `Error` message of the timeout rejection. -/
def qrTimeoutMsg (userId : String) : String :=
  "QR_TIMEOUT: Client " ++ userId ++ " failed to scan QR after "
    ++ toString (QR_TIMEOUT_MS / 1000) ++ "s."

/-- The expression `err.message.includes('QR_TIMEOUT') ? "qr_timeout" : "init_failed"`. -/
def statusOfErr (errMsg : String) : String :=
  if strIncludes errMsg "QR_TIMEOUT" then "qr_timeout" else "init_failed"

structure SysState where
  table : List (String × Nat)       -- `clients`
  nextAdapter : Nat                 -- source of fresh client instances
  adaptersStarted : Nat             -- how many `new Client(...)` ran
  destroyCalls : Nat                -- how many `client.destroy()` ran
  statusWrites : List StatusWrite   -- `updateFirestoreStatus` calls
deriving DecidableEq, Repr

/-- Phase of one `createClient(userId)` invocation. -/
inductive InvPhase where
  | start                        -- about to run the guard line
  | awaiting (client : Nat)      -- adapter started, handshake in flight
  | doneOk (client : Nat)        -- returned `client`
  | doneErr (errMsg : String)    -- threw `err`
deriving DecidableEq, Repr

/-- The atomic event that advances an invocation: the guard segment, the
`ready` resolution, the deadline firing, or `client.initialize()`
rejecting with some other error.  `destroyOk` is the outcome of the
`client.destroy()` call in the catch block (its failure is swallowed). -/
inductive Action where
  | guard
  | ready
  | timeout (destroyOk : Bool)
  | initFail (errMsg : String) (destroyOk : Bool)
deriving DecidableEq, Repr

/-- The catch block of `createClient` (shared by timeout and other
initialization failures): conditionally `delete clients[userId]`,
`await client.destroy()` with the error ignored, write the failure
status, re-throw. -/
def catchBlock (u : String) (s : SysState) (errMsg : String) :
    SysState × InvPhase :=
  ({ s with table := eraseClient s.table u
            destroyCalls := s.destroyCalls + 1
            statusWrites := s.statusWrites
              ++ [⟨u, statusOfErr errMsg, false, some none, none⟩] },
   .doneErr errMsg)

/-- One atomic step of a `createClient u` invocation in phase `ph`. -/
def stepCreate (u : String) (s : SysState) (ph : InvPhase) (a : Action) :
    SysState × InvPhase :=
  match ph, a with
  | .start, .guard =>
    match lookupClient s.table u with
    | some c => (s, .doneOk c)         -- `if (clients[userId]) return clients[userId]`
    | none =>                          -- `new Client(...)`; handshake begins
      ({ s with nextAdapter := s.nextAdapter + 1
                adaptersStarted := s.adaptersStarted + 1 },
       .awaiting s.nextAdapter)
  | .awaiting c, .ready =>             -- `clients[userId] = client; return client`
    ({ s with table := insertClient s.table u c }, .doneOk c)
  | .awaiting _, .timeout _ =>         -- deadline fired first
    catchBlock u s (qrTimeoutMsg u)
  | .awaiting _, .initFail errMsg _ => -- `client.initialize()` rejected
    catchBlock u s errMsg
  | _, _ => (s, ph)                    -- finished invocations take no steps

/-- Two concurrent `createClient u` invocations plus the shared state. -/
structure TwoInv where
  sys : SysState
  ph0 : InvPhase
  ph1 : InvPhase
deriving DecidableEq, Repr

/-- Schedule entry `(who, a)` : invocation `who` performs action `a`. -/
def stepTwo (u : String) (st : TwoInv) (who : Bool) (a : Action) : TwoInv :=
  if who then
    let r := stepCreate u st.sys st.ph1 a
    ⟨r.1, st.ph0, r.2⟩
  else
    let r := stepCreate u st.sys st.ph0 a
    ⟨r.1, r.2, st.ph1⟩

def runTwo (u : String) : TwoInv → List (Bool × Action) → TwoInv
  | st, [] => st
  | st, (w, a) :: rest => runTwo u (stepTwo u st w a) rest

/-- Fresh process state and two calls about to enter `createClient u`. -/
def initTwo : TwoInv :=
  ⟨⟨[], 0, 0, 0, []⟩, .start, .start⟩

/-! ## Client event listeners (source: `setupClientListeners`, lines 204–245) -/

/-- Handler `client.on("qr", ...)`. -/
def onQr (u qr : String) (s : SysState) : SysState :=
  { s with statusWrites := s.statusWrites
      ++ [⟨u, "awaiting_scan", false, some (some qr), none⟩] }

/-- Handler `client.on("ready", ...)` (status projection only; registration in
the table is `createClient`'s `.ready` step). -/
def onReady (u phone : String) (s : SysState) : SysState :=
  { s with statusWrites := s.statusWrites
      ++ [⟨u, "active", true, some none, some phone⟩] }

/-- Handler `client.on("disconnected", ...)`: project the status, then
`delete clients[userId]`. -/
def onDisconnected (u _reason : String) (s : SysState) : SysState :=
  { s with statusWrites := s.statusWrites
            ++ [⟨u, "disconnected", false, none, none⟩]
           table := eraseClient s.table u }

/-- Handler `client.on("auth_failure", ...)`: project the status.  The handler
contains no `delete clients[userId]` — the table is left unchanged. -/
def onAuthFailure (u : String) (s : SysState) : SysState :=
  { s with statusWrites := s.statusWrites
      ++ [⟨u, "auth_failed", false, none, none⟩] }

/-! ## `/disconnect` endpoint (source: lines 351–359)

```js
app.post("/disconnect", async (req, res) => {
  const { userId } = req.body;
  if (!clients[userId]) return res.status(400).json({ error: "Not running" });
  await clients[userId].logout();
  delete clients[userId];
  res.json({ message: `Client ${userId} disconnected.` });
});
```

There is no `try/catch`: when `logout()` rejects, the handler aborts
with an unhandled rejection and the `delete` line never runs. -/

inductive HttpResult where
  | badRequest (error : String)
  | okResponse (message : String)
  | unhandledError
deriving DecidableEq, Repr

def disconnectEndpoint (logoutOk : Bool) (u : String)
    (table : List (String × Nat)) : HttpResult × List (String × Nat) :=
  match lookupClient table u with
  | none => (.badRequest "Not running", table)
  | some _ =>
    if logoutOk then
      (.okResponse ("Client " ++ u ++ " disconnected."), eraseClient table u)
    else
      (.unhandledError, table)

/-! ## Startup (source: `initializeFirebase`, lines 24–48, and the
final IIFE, lines 373–379)

```js
if (!ENCRYPTION_KEY || ENCRYPTION_KEY.length !== 64
    || !/^[0-9a-fA-F]{64}$/.test(ENCRYPTION_KEY)) { throw ... }
// ... firebase credential handling ...
// catch: process.exit(1)

(async () => {
  await initializeFirebase();
  startAiReplyExecutor();
  app.listen(PORT, "0.0.0.0", ...);
})();
```
-/

/-- The character class `[0-9a-fA-F]`. -/
def isHexDigit (c : Char) : Bool :=
  ('0' ≤ c && c ≤ '9') || ('a' ≤ c && c ≤ 'f') || ('A' ≤ c && c ≤ 'F')

/-- The regex test `/^[0-9a-fA-F]{64}$/.test(s)`. -/
def hexKeyRegexTest (s : String) : Bool :=
  s.length == 64 && s.data.all isHexDigit

/-- The guard `!ENCRYPTION_KEY || ENCRYPTION_KEY.length !== 64 ||
!/^[0-9a-fA-F]{64}$/.test(ENCRYPTION_KEY)` (`none` = unset env var,
`some ""` = empty string, both falsy). -/
def encryptionKeyInvalid (key : Option String) : Bool :=
  match key with
  | none => true
  | some s => s == "" || s.length != 64 || !hexKeyRegexTest s

structure StartupState where
  exited : Bool              -- `process.exit(1)` ran
  dispatcherStarted : Bool   -- `startAiReplyExecutor()` ran
  httpListening : Bool       -- `app.listen(...)` ran
deriving DecidableEq, Repr

/-- Process start: `initializeFirebase` (key check, then firebase
credential setup abstracted as `firebaseOk`) followed, only on success,
by the dispatcher and the HTTP listener. -/
def startup (key : Option String) (firebaseOk : Bool) : StartupState :=
  if encryptionKeyInvalid key then ⟨true, false, false⟩
  else if !firebaseOk then ⟨true, false, false⟩
  else ⟨false, true, true⟩

/-! ## Helper lemmas on the clients table -/

theorem lookup_erase_self (t : List (String × Nat)) (u : String) :
    lookupClient (eraseClient t u) u = none := by
  induction t with
  | nil => rfl
  | cons p rest ih =>
    unfold eraseClient at ih ⊢
    rw [List.filter_cons]
    by_cases hp : p.1 = u
    · simpa [hp] using ih
    · simpa [hp, lookupClient] using ih

theorem lookup_insert_self (t : List (String × Nat)) (u : String) (c : Nat) :
    lookupClient (insertClient t u c) u = some c := by
  simp [insertClient, lookupClient]

theorem not_mem_keys_erase (t : List (String × Nat)) (u : String) :
    u ∉ (eraseClient t u).map Prod.fst := by
  intro h
  rcases List.mem_map.1 h with ⟨p, hp, hu⟩
  have := (List.mem_filter.1 hp).2
  rw [hu] at this
  simp at this

theorem keys_nodup_erase (t : List (String × Nat)) (u : String)
    (h : (t.map Prod.fst).Nodup) : ((eraseClient t u).map Prod.fst).Nodup :=
  h.sublist ((List.filter_sublist t).map Prod.fst)

theorem keys_nodup_insert (t : List (String × Nat)) (u : String) (c : Nat)
    (h : (t.map Prod.fst).Nodup) :
    ((insertClient t u c).map Prod.fst).Nodup := by
  simp only [insertClient, List.map_cons]
  exact List.nodup_cons.2 ⟨not_mem_keys_erase t u, keys_nodup_erase t u h⟩

/-! ## Helper lemmas on the inbound filter -/

theorem body_of_trimmed_ne (msg : Msg) (h : trimmedBody msg ≠ "") :
    ∃ b, msg.body = some b ∧ b ≠ "" := by
  cases hb : msg.body with
  | none => exact absurd (by simp [trimmedBody, hb]) h
  | some b =>
    refine ⟨b, rfl, ?_⟩
    rintro rfl
    exact h (by simp [trimmedBody, hb]; rfl)

/-! ## Claim theorems -/

/-- Claim C9: `encrypt` maps every empty / null / undefined input to the
all-null record without error, and every non-empty string input to a
record whose `encryptedBody`, `iv` and `authTag` are all non-null hex
strings. -/
theorem C9_encrypt_nullsafe (cb tb : String → List Nat) (ivb : List Nat)
    (text : Option String) :
    ((text = none ∨ text = some "") →
      encrypt cb tb ivb text = ⟨none, none, none⟩)
    ∧ (∀ t, text = some t → t ≠ "" →
      ∃ e i a, encrypt cb tb ivb text = ⟨some e, some i, some a⟩
        ∧ IsHexString e ∧ IsHexString i ∧ IsHexString a) := by
  constructor
  · rintro (rfl | rfl) <;> simp [encrypt]
  · rintro t rfl ht
    refine ⟨hexEncode (cb t), hexEncode ivb, hexEncode (tb t), ?_,
      hexEncode_isHex _, hexEncode_isHex _, hexEncode_isHex _⟩
    simp [encrypt, ht]

theorem C9_witness :
    (some "hi" : Option String) = some "hi" ∧ "hi" ≠ ""
    ∧ ∃ e i a,
      encrypt (fun s => s.data.map Char.toNat) (fun _ => [0]) [1] (some "hi")
        = ⟨some e, some i, some a⟩
      ∧ IsHexString e ∧ IsHexString i ∧ IsHexString a :=
  ⟨rfl, by decide,
    (C9_encrypt_nullsafe (fun s => s.data.map Char.toNat) (fun _ => [0]) [1]
      (some "hi")).2 "hi" rfl (by decide)⟩

/-- Claim C3: `handleInboundMessage` performs no store write (and raises
no error) when any skip condition holds — group-like sender, echo from
self, body empty after trimming, or media type — and otherwise performs
exactly one store write whose row has non-null `encryptedBody`, `iv`
and `authTag` and queue fields `processed=false`, `isLead=null`,
`replyPending=false`, `autoReplyText=null`. -/
theorem C3_inbound_filter (cb tb : String → List Nat) (ivb : List Nat)
    (now : Nat) (msg : Msg) (userId : String) :
    ((isGroupLike msg = true ∨ msg.fromMe = true ∨ trimmedBody msg = ""
        ∨ mediaTypes.contains msg.msgType = true) →
      handleInboundMessage cb tb ivb now msg userId = none)
    ∧ (isGroupLike msg = false → msg.fromMe = false → trimmedBody msg ≠ ""
        → mediaTypes.contains msg.msgType = false →
      ∃ row, handleInboundMessage cb tb ivb now msg userId = some row
        ∧ row.encryptedBody.isSome = true ∧ row.iv.isSome = true
        ∧ row.authTag.isSome = true ∧ row.processed = false
        ∧ row.isLead = none ∧ row.replyPending = false
        ∧ row.autoReplyText = none) := by
  constructor
  · intro h
    unfold handleInboundMessage
    split_ifs with h1 h2 h3 h4 <;> try rfl
    rcases h with h | h | h | h
    · exact absurd h (by simpa using h1)
    · exact absurd h (by simpa using h2)
    · exact absurd h h3
    · exact absurd h (by simpa using h4)
  · intro h1 h2 h3 h4
    obtain ⟨b, hb, hbne⟩ := body_of_trimmed_ne msg h3
    have h4' : msg.msgType ∉ mediaTypes := by simpa using h4
    refine ⟨saveRawMessage cb tb ivb now msg userId, ?_, ?_⟩
    · simp [handleInboundMessage, h1, h2, h3, h4']
    · simp [saveRawMessage, encrypt, hb, hbne]

theorem C3_witness :
    isGroupLike ⟨"123@c.us", "me@c.us", some "hello", "chat", false, false, "w1"⟩ = false
    ∧ Msg.fromMe ⟨"123@c.us", "me@c.us", some "hello", "chat", false, false, "w1"⟩ = false
    ∧ trimmedBody ⟨"123@c.us", "me@c.us", some "hello", "chat", false, false, "w1"⟩ ≠ ""
    ∧ mediaTypes.contains "chat" = false
    ∧ ∃ row, handleInboundMessage (fun s => s.data.map Char.toNat) (fun _ => [0])
        [1] 0 ⟨"123@c.us", "me@c.us", some "hello", "chat", false, false, "w1"⟩ "t1"
          = some row
        ∧ row.encryptedBody.isSome = true ∧ row.iv.isSome = true
        ∧ row.authTag.isSome = true ∧ row.processed = false
        ∧ row.isLead = none ∧ row.replyPending = false
        ∧ row.autoReplyText = none :=
  ⟨by decide, by decide, by decide, by decide,
    (C3_inbound_filter (fun s => s.data.map Char.toNat) (fun _ => [0]) [1] 0
      ⟨"123@c.us", "me@c.us", some "hello", "chat", false, false, "w1"⟩ "t1").2
      (by decide) (by decide) (by decide) (by decide)⟩

/-- Claim C10: whenever the filter persists a message, the plaintext
handed to encryption (ciphertext and tag inputs) is the original,
untrimmed body `b` — trimming only gates the empty-body skip, it never
alters what is stored. -/
theorem C10_untrimmed_body_stored (cb tb : String → List Nat) (ivb : List Nat)
    (now : Nat) (msg : Msg) (userId : String) (row : RawMessageRow)
    (h : handleInboundMessage cb tb ivb now msg userId = some row) :
    ∃ b, msg.body = some b
      ∧ row = saveRawMessage cb tb ivb now msg userId
      ∧ row.encryptedBody = some (hexEncode (cb b))
      ∧ row.authTag = some (hexEncode (tb b)) := by
  unfold handleInboundMessage at h
  split_ifs at h with h1 h2 h3 h4
  obtain ⟨b, hb, hbne⟩ := body_of_trimmed_ne msg h3
  injection h with h
  exact ⟨b, hb, h.symm, by simp [← h, saveRawMessage, encrypt, hb, hbne],
    by simp [← h, saveRawMessage, encrypt, hb, hbne]⟩

theorem C10_witness :
    handleInboundMessage (fun s => s.data.map Char.toNat) (fun s => [s.length])
        [1] 0 ⟨"123@c.us", "me@c.us", some "  hi  ", "chat", false, false, "w1"⟩ "t1"
      = some (saveRawMessage (fun s => s.data.map Char.toNat) (fun s => [s.length])
        [1] 0 ⟨"123@c.us", "me@c.us", some "  hi  ", "chat", false, false, "w1"⟩ "t1")
    ∧ ∃ b, Msg.body ⟨"123@c.us", "me@c.us", some "  hi  ", "chat", false, false, "w1"⟩
        = some b
      ∧ saveRawMessage (fun s => s.data.map Char.toNat) (fun s => [s.length])
          [1] 0 ⟨"123@c.us", "me@c.us", some "  hi  ", "chat", false, false, "w1"⟩ "t1"
        = saveRawMessage (fun s => s.data.map Char.toNat) (fun s => [s.length])
          [1] 0 ⟨"123@c.us", "me@c.us", some "  hi  ", "chat", false, false, "w1"⟩ "t1"
      ∧ (saveRawMessage (fun s => s.data.map Char.toNat) (fun s => [s.length])
          [1] 0 ⟨"123@c.us", "me@c.us", some "  hi  ", "chat", false, false, "w1"⟩ "t1").encryptedBody
        = some (hexEncode ((fun s : String => s.data.map Char.toNat) b))
      ∧ (saveRawMessage (fun s => s.data.map Char.toNat) (fun s => [s.length])
          [1] 0 ⟨"123@c.us", "me@c.us", some "  hi  ", "chat", false, false, "w1"⟩ "t1").authTag
        = some (hexEncode ((fun s : String => [s.length]) b)) :=
  ⟨by decide,
    C10_untrimmed_body_stored (fun s => s.data.map Char.toNat) (fun s => [s.length])
      [1] 0 ⟨"123@c.us", "me@c.us", some "  hi  ", "chat", false, false, "w1"⟩ "t1"
      (saveRawMessage (fun s => s.data.map Char.toNat) (fun s => [s.length])
        [1] 0 ⟨"123@c.us", "me@c.us", some "  hi  ", "chat", false, false, "w1"⟩ "t1")
      (by decide)⟩

/-- Claim C4 (counterexample to the claim as stated): the executor's
guard `!d.autoReplyText || ...` skips on *falsy* fields, not only null
ones.  A row with `replyPending=true`, a **non-null but empty**
`autoReplyText`, non-null sender and tenant, and a live session for
the tenant produces no send and no row update, although the claim
requires a send of the (empty) body. -/
theorem C4_counterexample :
    (ReplyDoc.autoReplyText ⟨some "", some "123@x", some "t1", true, none⟩).isSome = true
    ∧ (ReplyDoc.replyPending ⟨some "", some "123@x", some "t1", true, none⟩) = true
    ∧ lookupClient [("t1", 7)] "t1" = some 7
    ∧ dispatchChange [("t1", 7)] true 5 .modified ⟨some "", some "123@x", some "t1", true, none⟩
        = ⟨none, false, ⟨some "", some "123@x", some "t1", true, none⟩⟩ := by
  decide

/-- Claim C4 (amended): for every added/modified change-feed row with
`replyPending=true` and non-null **and non-empty** `autoReplyText`,
`senderAddress` and `tenantId`, and a live Session for that tenantId,
dispatch sends exactly the `autoReplyText` body to the sender address
through that Session's client and, the send succeeding, updates the
row to `replyPending=false` with `replySentAt` stamped. -/
theorem C4_dispatch_success (table : List (String × Nat)) (now : Nat)
    (ctype : ChangeType) (d : ReplyDoc) (text addr uid : String) (c : Nat)
    (hct : ctype ≠ .removed)
    (_hp : d.replyPending = true)
    (ht : d.autoReplyText = some text) (ht0 : text ≠ "")
    (ha : d.fromAddr = some addr) (ha0 : addr ≠ "")
    (hu : d.userId = some uid) (hu0 : uid ≠ "")
    (hc : lookupClient table uid = some c) :
    dispatchChange table true now ctype d =
      ⟨some ⟨c, addr, text⟩, true,
       { d with replyPending := false, replySentAt := some now }⟩ := by
  simp [dispatchChange, hct, ht, ha, hu, ht0, ha0, hu0, hc]

theorem C4_witness :
    (ChangeType.modified ≠ ChangeType.removed)
    ∧ (ReplyDoc.replyPending ⟨some "hello", some "123@x", some "t1", true, none⟩ = true)
    ∧ lookupClient [("t1", 7)] "t1" = some 7
    ∧ dispatchChange [("t1", 7)] true 5 .modified
        ⟨some "hello", some "123@x", some "t1", true, none⟩
      = ⟨some ⟨7, "123@x", "hello"⟩, true,
         ⟨some "hello", some "123@x", some "t1", false, some 5⟩⟩ :=
  ⟨by decide, rfl, rfl,
    C4_dispatch_success [("t1", 7)] 5 .modified
      ⟨some "hello", some "123@x", some "t1", true, none⟩
      "hello" "123@x" "t1" 7 (by decide) rfl rfl (by decide) rfl (by decide)
      rfl (by decide) rfl⟩

/-- Any skip condition (or a failed send) leaves the executor with no
completed send and the document untouched. -/
theorem dispatch_unchanged_of (table : List (String × Nat)) (sendOk : Bool)
    (now : Nat) (ctype : ChangeType) (d : ReplyDoc)
    (h : ctype = .removed ∨ d.autoReplyText = none ∨ d.fromAddr = none
      ∨ d.userId = none
      ∨ (∃ uid, d.userId = some uid ∧ lookupClient table uid = none)
      ∨ sendOk = false) :
    (dispatchChange table sendOk now ctype d).sendCompleted = false
    ∧ (dispatchChange table sendOk now ctype d).docAfter = d := by
  by_cases hct : ctype = .removed
  · simp [dispatchChange, hct]
  cases hart : d.autoReplyText with
  | none => simp [dispatchChange, hct, hart]
  | some text =>
  cases hfa : d.fromAddr with
  | none => simp [dispatchChange, hct, hart, hfa]
  | some addr =>
  cases huid : d.userId with
  | none => simp [dispatchChange, hct, hart, hfa, huid]
  | some u =>
  by_cases he : text = "" ∨ addr = "" ∨ u = ""
  · simp [dispatchChange, hct, hart, hfa, huid, he]
  rcases h with h | h | h | h | ⟨u', hu', hl⟩ | h
  · exact absurd h hct
  · rw [hart] at h; cases h
  · rw [hfa] at h; cases h
  · rw [huid] at h; cases h
  · rw [huid] at hu'
    injection hu' with hu'
    subst hu'
    simp [dispatchChange, hct, hart, hfa, huid, he, hl]
  · subst h
    cases hl : lookupClient table u <;>
      simp [dispatchChange, hct, hart, hfa, huid, he, hl]

/-- A changed document implies the send was attempted with success. -/
theorem dispatch_changed (table : List (String × Nat)) (sendOk : Bool)
    (now : Nat) (ctype : ChangeType) (d : ReplyDoc)
    (hne : (dispatchChange table sendOk now ctype d).docAfter ≠ d) :
    sendOk = true ∧ (dispatchChange table sendOk now ctype d).sendCompleted = true := by
  by_cases hct : ctype = .removed
  · simp [dispatchChange, hct] at hne
  cases hart : d.autoReplyText with
  | none => simp [dispatchChange, hct, hart] at hne
  | some text =>
  cases hfa : d.fromAddr with
  | none => simp [dispatchChange, hct, hart, hfa] at hne
  | some addr =>
  cases huid : d.userId with
  | none => simp [dispatchChange, hct, hart, hfa, huid] at hne
  | some u =>
  by_cases he : text = "" ∨ addr = "" ∨ u = ""
  · simp [dispatchChange, hct, hart, hfa, huid, he] at hne
  cases hl : lookupClient table u with
  | none => simp [dispatchChange, hct, hart, hfa, huid, he, hl] at hne
  | some c =>
    cases sendOk with
    | false => simp [dispatchChange, hct, hart, hfa, huid, he, hl] at hne
    | true =>
      exact ⟨rfl, by simp [dispatchChange, hct, hart, hfa, huid, he, hl]⟩

/-- Claim C5: the executor never marks a row complete without a
successful send.  If `autoReplyText`, `senderAddress` or `tenantId` is
absent, or no live session exists for the tenant, or the send fails,
then no send is completed and the row is left unchanged, still
`replyPending=true` with `replySentAt` unset; conversely any changed
row implies a completed, successful send. -/
theorem C5_no_complete_without_send (table : List (String × Nat))
    (sendOk : Bool) (now : Nat) (ctype : ChangeType) (d : ReplyDoc)
    (hp : d.replyPending = true) (hs : d.replySentAt = none) :
    ((d.autoReplyText = none ∨ d.fromAddr = none ∨ d.userId = none
        ∨ (∃ uid, d.userId = some uid ∧ lookupClient table uid = none)
        ∨ sendOk = false) →
      (dispatchChange table sendOk now ctype d).sendCompleted = false
        ∧ (dispatchChange table sendOk now ctype d).docAfter = d
        ∧ (dispatchChange table sendOk now ctype d).docAfter.replyPending = true
        ∧ (dispatchChange table sendOk now ctype d).docAfter.replySentAt = none)
    ∧ ((dispatchChange table sendOk now ctype d).docAfter ≠ d →
        sendOk = true
          ∧ (dispatchChange table sendOk now ctype d).sendCompleted = true) := by
  constructor
  · intro hcond
    have hbig : ctype = .removed ∨ d.autoReplyText = none ∨ d.fromAddr = none
        ∨ d.userId = none
        ∨ (∃ uid, d.userId = some uid ∧ lookupClient table uid = none)
        ∨ sendOk = false := by
      rcases hcond with h | h | h | hex | h
      · tauto
      · tauto
      · tauto
      · exact .inr (.inr (.inr (.inr (.inl hex))))
      · tauto
    obtain ⟨h1, h2⟩ := dispatch_unchanged_of table sendOk now ctype d hbig
    exact ⟨h1, h2, by rw [h2]; exact hp, by rw [h2]; exact hs⟩
  · exact dispatch_changed table sendOk now ctype d

theorem C5_witness :
    (ReplyDoc.replyPending ⟨some "hello", some "123@x", some "t1", true, none⟩ = true)
    ∧ (ReplyDoc.replySentAt ⟨some "hello", some "123@x", some "t1", true, none⟩ = none)
    ∧ (((ReplyDoc.autoReplyText ⟨some "hello", some "123@x", some "t1", true, none⟩ = none
          ∨ ReplyDoc.fromAddr ⟨some "hello", some "123@x", some "t1", true, none⟩ = none
          ∨ ReplyDoc.userId ⟨some "hello", some "123@x", some "t1", true, none⟩ = none
          ∨ (∃ uid, ReplyDoc.userId ⟨some "hello", some "123@x", some "t1", true, none⟩
                = some uid ∧ lookupClient [] uid = none)
          ∨ true = false) →
        (dispatchChange [] true 5 .modified
            ⟨some "hello", some "123@x", some "t1", true, none⟩).sendCompleted = false
          ∧ (dispatchChange [] true 5 .modified
              ⟨some "hello", some "123@x", some "t1", true, none⟩).docAfter
            = ⟨some "hello", some "123@x", some "t1", true, none⟩
          ∧ (dispatchChange [] true 5 .modified
              ⟨some "hello", some "123@x", some "t1", true, none⟩).docAfter.replyPending = true
          ∧ (dispatchChange [] true 5 .modified
              ⟨some "hello", some "123@x", some "t1", true, none⟩).docAfter.replySentAt = none)
      ∧ ((dispatchChange [] true 5 .modified
            ⟨some "hello", some "123@x", some "t1", true, none⟩).docAfter
          ≠ ⟨some "hello", some "123@x", some "t1", true, none⟩ →
          true = true
            ∧ (dispatchChange [] true 5 .modified
                ⟨some "hello", some "123@x", some "t1", true, none⟩).sendCompleted = true)) :=
  ⟨rfl, rfl,
    C5_no_complete_without_send [] true 5 .modified
      ⟨some "hello", some "123@x", some "t1", true, none⟩ rfl rfl⟩

/-! ## Helper lemmas on the createClient step machine -/

theorem qrTimeoutMsg_includes (u : String) :
    strIncludes (qrTimeoutMsg u) "QR_TIMEOUT" = true := by
  simp only [strIncludes, qrTimeoutMsg, String.data_append]
  rfl

theorem keys_nodup_step (u : String) (s : SysState) (ph : InvPhase) (a : Action)
    (h : (s.table.map Prod.fst).Nodup) :
    (((stepCreate u s ph a).1).table.map Prod.fst).Nodup := by
  cases ph with
  | start =>
    cases a <;> try exact h
    cases hl : lookupClient s.table u <;> simp [stepCreate, hl] <;> exact h
  | awaiting c =>
    cases a with
    | guard => exact h
    | ready => exact keys_nodup_insert _ _ _ h
    | timeout dok => exact keys_nodup_erase _ _ h
    | initFail msg dok => exact keys_nodup_erase _ _ h
  | doneOk c => cases a <;> exact h
  | doneErr m => cases a <;> exact h

theorem keys_nodup_stepTwo (u : String) (st : TwoInv) (w : Bool) (a : Action)
    (h : (st.sys.table.map Prod.fst).Nodup) :
    (((stepTwo u st w a).sys).table.map Prod.fst).Nodup := by
  cases w <;> simp only [stepTwo] <;> exact keys_nodup_step u st.sys _ a h

theorem keys_nodup_runTwo (u : String) (st : TwoInv)
    (h : (st.sys.table.map Prod.fst).Nodup) (sched : List (Bool × Action)) :
    (((runTwo u st sched).sys).table.map Prod.fst).Nodup := by
  induction sched generalizing st with
  | nil => exact h
  | cons p rest ih => exact ih _ (keys_nodup_stepTwo u st p.1 p.2 h)

/-! ## Claim theorems for the session manager -/

/-- Claim C1 (counterexample): two `createClient("t1")` calls whose guard
segments both run before either handshake completes — the schedule a
"called twice concurrently before either completes handshake" scenario
produces.  Both guards see an empty table, so **two** adapters are
started; the second call completes with adapter `1`, not the first
call's in-flight adapter `0`, and registration by the second call
orphans the first adapter.  This refutes "returns the existing
in-flight Session and does not start a second adapter". -/
theorem C1_counterexample :
    (runTwo "t1" initTwo
      [(false, .guard), (true, .guard), (false, .ready), (true, .ready)]).sys.adaptersStarted = 2
    ∧ (runTwo "t1" initTwo
        [(false, .guard), (true, .guard), (false, .ready), (true, .ready)]).ph0
      = .doneOk 0
    ∧ (runTwo "t1" initTwo
        [(false, .guard), (true, .guard), (false, .ready), (true, .ready)]).ph1
      = .doneOk 1
    ∧ (runTwo "t1" initTwo
        [(false, .guard), (true, .guard), (false, .ready), (true, .ready)]).sys.table
      = [("t1", 1)] := by
  decide

/-- Claim C1 (amended): the in-memory table itself can never hold two
entries for one tenantId (its keys stay `Nodup` under every
interleaving of two concurrent creates), and a `createClient` whose
guard finds a **registered** Session returns that existing Session
without starting a second adapter.  (The stronger claim — that a call
arriving *mid-handshake* also gets the in-flight Session — fails,
because registration happens only at `ready`; see the
counterexample.) -/
theorem C1_table_unique_and_registered_dedup :
    (∀ (u : String) (sched : List (Bool × Action)),
      (((runTwo u initTwo sched).sys).table.map Prod.fst).Nodup)
    ∧ (∀ (u : String) (s : SysState) (c : Nat),
        lookupClient s.table u = some c →
        stepCreate u s .start .guard = (s, .doneOk c)) := by
  constructor
  · intro u sched
    exact keys_nodup_runTwo u initTwo (by simp [initTwo]) sched
  · intro u s c h
    simp [stepCreate, h]

theorem C1_witness :
    lookupClient [("t1", 5)] "t1" = some 5
    ∧ stepCreate "t1" ⟨[("t1", 5)], 6, 1, 0, []⟩ .start .guard
        = (⟨[("t1", 5)], 6, 1, 0, []⟩, .doneOk 5)
    ∧ (((runTwo "t1" initTwo [(false, .guard), (false, .ready)]).sys).table.map
        Prod.fst).Nodup :=
  ⟨rfl,
    C1_table_unique_and_registered_dedup.2 "t1" ⟨[("t1", 5)], 6, 1, 0, []⟩ 5 rfl,
    C1_table_unique_and_registered_dedup.1 "t1" [(false, .guard), (false, .ready)]⟩

/-- Claim C2: a `createClient` whose handshake is beaten by the deadline
throws the `QR_TIMEOUT` error to its caller, runs `client.destroy()`
exactly once (with the same overall result whether the destroy
succeeds or fails), leaves no entry for the tenant in the table, and a
subsequent create for the same tenant proceeds to a fresh adapter and
registers it.  The deadline constant is 60 seconds. -/
theorem C2_timeout_cleanup (s : SysState) (u : String) (destroyOk : Bool)
    (h : lookupClient s.table u = none) :
    let g := stepCreate u s .start .guard
    let t := stepCreate u g.1 g.2 (.timeout destroyOk)
    (t.2 = .doneErr (qrTimeoutMsg u)
      ∧ strIncludes (qrTimeoutMsg u) "QR_TIMEOUT" = true)
    ∧ t.1.destroyCalls = s.destroyCalls + 1
    ∧ stepCreate u g.1 g.2 (.timeout true) = stepCreate u g.1 g.2 (.timeout false)
    ∧ lookupClient t.1.table u = none
    ∧ (∀ a, stepCreate u t.1 t.2 a = (t.1, t.2))
    ∧ (let g2 := stepCreate u t.1 .start .guard
       let r2 := stepCreate u g2.1 g2.2 .ready
       r2.2 = .doneOk t.1.nextAdapter
         ∧ lookupClient r2.1.table u = some t.1.nextAdapter)
    ∧ QR_TIMEOUT_MS = 60000 := by
  refine ⟨⟨?_, qrTimeoutMsg_includes u⟩, ?_, ?_, ?_, fun a => ?_, ⟨?_, ?_⟩, rfl⟩ <;>
    first
    | (cases a <;>
        simp [stepCreate, h, catchBlock, lookup_erase_self, lookup_insert_self])
    | simp [stepCreate, h, catchBlock, lookup_erase_self, lookup_insert_self]

theorem C2_witness :
    lookupClient ([] : List (String × Nat)) "t1" = none
    ∧ (let g := stepCreate "t1" ⟨[], 0, 0, 0, []⟩ .start .guard
       let t := stepCreate "t1" g.1 g.2 (.timeout false)
       (t.2 = .doneErr (qrTimeoutMsg "t1")
         ∧ strIncludes (qrTimeoutMsg "t1") "QR_TIMEOUT" = true)
       ∧ t.1.destroyCalls = 0 + 1
       ∧ stepCreate "t1" g.1 g.2 (.timeout true) = stepCreate "t1" g.1 g.2 (.timeout false)
       ∧ lookupClient t.1.table "t1" = none
       ∧ stepCreate "t1" t.1 t.2 (.timeout true) = (t.1, t.2)
       ∧ (let g2 := stepCreate "t1" t.1 .start .guard
          let r2 := stepCreate "t1" g2.1 g2.2 .ready
          r2.2 = .doneOk t.1.nextAdapter
            ∧ lookupClient r2.1.table "t1" = some t.1.nextAdapter)
       ∧ QR_TIMEOUT_MS = 60000) := by
  have h := C2_timeout_cleanup ⟨[], 0, 0, 0, []⟩ "t1" false rfl
  exact ⟨rfl, h.1, h.2.1, h.2.2.1, h.2.2.2.1, h.2.2.2.2.1 (.timeout true),
    h.2.2.2.2.2.1, h.2.2.2.2.2.2⟩

/-! ## Claim theorems for the event listeners -/

/-- Claim C6 (counterexample): in a state where `"t1"` is registered, the
`auth_failure` handler projects `auth_failed` to the session store but
leaves the table entry in place — `delete clients[userId]` does not
appear in that handler, refuting "removes the tenantId entry". -/
theorem C6_counterexample :
    lookupClient ((onAuthFailure "t1" ⟨[("t1", 0)], 1, 1, 0, []⟩).table) "t1" = some 0
    ∧ (onAuthFailure "t1" ⟨[("t1", 0)], 1, 1, 0, []⟩).statusWrites
      = [⟨"t1", "auth_failed", false, none, none⟩] := by
  decide

/-- Claim C6 (amended): the `disconnected(reason)` handler projects
status `"disconnected"` and evicts the tenant's table entry; the
`auth_failure` handler projects status `"auth_failed"` but performs
**no** eviction — the table is left unchanged. -/
theorem C6_terminal_events (u reason : String) (s : SysState) :
    ((onDisconnected u reason s).statusWrites
        = s.statusWrites ++ [⟨u, "disconnected", false, none, none⟩]
      ∧ lookupClient (onDisconnected u reason s).table u = none)
    ∧ ((onAuthFailure u s).statusWrites
        = s.statusWrites ++ [⟨u, "auth_failed", false, none, none⟩]
      ∧ (onAuthFailure u s).table = s.table) :=
  ⟨⟨rfl, lookup_erase_self s.table u⟩, rfl, rfl⟩

/-! ## Claim theorems for the `/disconnect` endpoint -/

/-- Claim C7 (counterexample): with a live session for `"t1"`, a failing
`logout()` makes the handler abort before `delete clients[userId]`
runs — the entry is still present afterwards, refuting "always removes
the tenantId entry … even when the logout … step fails". -/
theorem C7_counterexample :
    (disconnectEndpoint false "t1" [("t1", 0)]).1 = .unhandledError
    ∧ (disconnectEndpoint false "t1" [("t1", 0)]).2 = [("t1", 0)]
    ∧ lookupClient (disconnectEndpoint false "t1" [("t1", 0)]).2 "t1" = some 0 := by
  decide

/-- Claim C7 (amended): for a tenant with a live Session, `/disconnect`
evicts the table entry only when `logout()` succeeds; when `logout()`
fails the handler surfaces an unhandled error and the entry remains
(there is no unconditional eviction and no adapter teardown call). -/
theorem C7_disconnect_eviction (table : List (String × Nat)) (u : String)
    (c : Nat) (h : lookupClient table u = some c) :
    ((disconnectEndpoint true u table).1
        = .okResponse ("Client " ++ u ++ " disconnected.")
      ∧ lookupClient (disconnectEndpoint true u table).2 u = none)
    ∧ ((disconnectEndpoint false u table).1 = .unhandledError
      ∧ (disconnectEndpoint false u table).2 = table) := by
  simp [disconnectEndpoint, h, lookup_erase_self]

theorem C7_witness :
    lookupClient [("t1", 3)] "t1" = some 3
    ∧ (((disconnectEndpoint true "t1" [("t1", 3)]).1
          = .okResponse ("Client " ++ "t1" ++ " disconnected.")
        ∧ lookupClient (disconnectEndpoint true "t1" [("t1", 3)]).2 "t1" = none)
      ∧ ((disconnectEndpoint false "t1" [("t1", 3)]).1 = .unhandledError
        ∧ (disconnectEndpoint false "t1" [("t1", 3)]).2 = [("t1", 3)])) :=
  ⟨rfl, C7_disconnect_eviction [("t1", 3)] "t1" 3 rfl⟩

/-! ## Claim theorems for startup key validation -/

/-- Claim C8: at process start the encryption key is checked before the
dispatcher or the HTTP surface comes up: an absent or malformed key
makes startup exit immediately with neither started, and the check
passes exactly when the key is a string of exactly 64 hexadecimal
characters (the hex encoding of a 32-byte value). -/
theorem C8_key_validation (key : Option String) (firebaseOk : Bool) :
    (encryptionKeyInvalid key = true →
      startup key firebaseOk = ⟨true, false, false⟩)
    ∧ (encryptionKeyInvalid key = false ↔
        ∃ s, key = some s ∧ s.length = 64 ∧ s.data.all isHexDigit = true) := by
  constructor
  · intro h
    simp [startup, h]
  · cases key with
    | none => simp [encryptionKeyInvalid]
    | some s =>
      constructor
      · intro hinv
        by_cases hlen : s.length = 64
        · by_cases hhex : s.data.all isHexDigit = true
          · exact ⟨s, rfl, hlen, hhex⟩
          · exfalso
            simp [encryptionKeyInvalid, hexKeyRegexTest, hlen, hhex] at hinv
        · exfalso
          simp [encryptionKeyInvalid, hexKeyRegexTest, hlen] at hinv
      · rintro ⟨s', hs', hlen, hhex⟩
        injection hs' with h
        subst h
        have hne : s ≠ "" := by
          intro h0
          rw [h0] at hlen
          simp at hlen
        simp [encryptionKeyInvalid, hexKeyRegexTest, hlen, hhex, hne]

theorem C8_witness :
    encryptionKeyInvalid none = true
    ∧ startup none true = ⟨true, false, false⟩ :=
  ⟨rfl, (C8_key_validation none true).1 rfl⟩

end WebWhatsapp
